import Mathlib

/-!
Verification of the git operation layer of the obsidian-git-bridge repository
(`src/obsidian_git_bridge/git_ops.py`, `doctor.py`, `git_operations.py`,
`wrappers.py`) against its natural-language specification.

The Python code shells out to git (via GitPython).  We embed it shallowly:
the repository on disk is a `RepoState` value, the outcomes of the external
git commands (fetch / pull / push) are given by a `GitEnv` environment, and
each Python function becomes a Lean function returning an
`Except GitErr result`, the updated `RepoState`, and a trace of the
tree-mutating git commands it executed.  Error classification by substring
search on the error text of the tool is embedded exactly as the Python code does
it, via Python-faithful string primitives defined below.
-/

namespace ObsidianGitBridge

/-! Python string primitives.  `str.strip`, `str.lower`, `str.replace`,
`str.startswith` and the `in` operator, with Python semantics, implemented
structurally so that the kernel can evaluate them. -/

/-- Python `str.strip()` whitespace set (space, tab, newline, CR, VT, FF). -/
def pySpace (c : Char) : Bool :=
  c == ' ' || c == '\t' || c == '\n' || c == '\r' ||
  c == Char.ofNat 11 || c == Char.ofNat 12

/-- Python `s.strip()`: drop leading and trailing whitespace. -/
def pyStrip (s : String) : String :=
  ⟨((s.data.dropWhile pySpace).reverse.dropWhile pySpace).reverse⟩

/-- Python `s.lower()` (ASCII-faithful). -/
def pyLower (s : String) : String :=
  ⟨s.data.map Char.toLower⟩

/-- Python `s.startswith(pre)`. -/
def pyStartsWith (s pre : String) : Bool :=
  pre.data.isPrefixOf s.data

/-- Helper for the Python `in` operator on strings. -/
def pyInAux (pat : List Char) : List Char → Bool
  | [] => pat.isEmpty
  | c :: rest => pat.isPrefixOf (c :: rest) || pyInAux pat rest

/-- Python `pat in s`: substring containment. -/
def pyIn (pat s : String) : Bool :=
  pyInAux pat.data s.data

/-- Helper for Python `s.replace(pat, rep)`: replace non-overlapping
occurrences left to right.  Fuel-indexed so the recursion is structural;
the fuel is the length of the subject string, which always suffices. -/
def pyReplaceAux (pat rep : List Char) : Nat → List Char → List Char
  | _, [] => []
  | 0, l => l
  | fuel + 1, c :: rest =>
    if pat ≠ [] && pat.isPrefixOf (c :: rest) then
      rep ++ pyReplaceAux pat rep fuel (List.drop (pat.length - 1) rest)
    else
      c :: pyReplaceAux pat rep fuel rest

/-- Python `s.replace(pat, rep)` for nonempty `pat`. -/
def pyReplace (s pat rep : String) : String :=
  ⟨pyReplaceAux pat.data rep.data s.data.length s.data⟩

/-! Error taxonomy: the exception classes of `git_ops.py` (lines 31-67).
Each carries the `message` and optional `details` that the Python
constructors receive. -/

/-- Exception classes of git_ops.py.  `generic` is the `GitError` base
class; the others are its subclasses. -/
inductive GitErr where
  | notInstalled (message : String) (details : Option String)
  | notARepo (message : String) (details : Option String)
  | remoteExists (message : String) (details : Option String)
  | mergeConflict (message : String) (details : Option String)
  | auth (message : String) (details : Option String)
  | pushRejected (message : String) (details : Option String)
  | generic (message : String) (details : Option String)
deriving DecidableEq

/-- Whether an error is a `RemoteAlreadyExistsError`. -/
def GitErr.isRemoteExists : GitErr → Bool
  | .remoteExists _ _ => true
  | _ => false

/-! Repository model.  A `RepoState` is the observable condition of the
repository at the vault path: whether it is a git repository, the current
branch and its tracking branch, the configured remotes (name/URL pairs),
the working-tree partition that `git status` reports, and whether a merge
or rebase is currently in progress. -/

/-- Observable state of the repository at the vault path. -/
structure RepoState where
  isRepo : Bool
  branch : Option String
  upstream : Option String
  remotes : List (String × String)
  stagedFiles : List String
  modifiedFiles : List String
  untrackedFiles : List String
  conflictEntries : Bool
  mergeInProgress : Bool
  rebaseInProgress : Bool
  commitsAhead : Nat
  commitsBehind : Nat
  canFastForward : Bool
  fetched : Bool
deriving DecidableEq

/-- GitPython `repo.is_dirty(untracked_files=False)`: staged or modified
tracked files. -/
def RepoState.dirtyTracked (s : RepoState) : Bool :=
  !(s.stagedFiles.isEmpty && s.modifiedFiles.isEmpty)

/-- GitPython `repo.is_dirty(untracked_files=True)`. -/
def RepoState.dirtyAll (s : RepoState) : Bool :=
  s.dirtyTracked || !s.untrackedFiles.isEmpty

/-- URL of the named remote, if configured (`repo.remote(name)`). -/
def lookupRemote (remotes : List (String × String)) (name : String) :
    Option String :=
  (remotes.find? (fun p => p.1 == name)).map (·.2)

/-- `remote.set_url(url)`: update the URL of the named remote in place. -/
def setRemoteUrl (remotes : List (String × String)) (name url : String) :
    List (String × String) :=
  remotes.map (fun p => if p.1 == name then (p.1, url) else p)

/-- Outcomes of the external git commands: `none` means the command
succeeds, `some msg` means it fails and `msg` is the error text the tool
produced (GitCommandError text / stderr), which the Python code classifies
by substring search.  `statusFailure` models any unexpected exception
inside the body of `get_repo_status` (its outer handler swallows it). -/
structure GitEnv where
  gitInstalled : Bool
  fetchError : Option String
  pullError : Option String
  pushError : Option String
  statusFailure : Bool
deriving DecidableEq

/-- Tree-mutating git commands a call executes, in order. -/
inductive Cmd where
  | fetch
  | pullRebase
  | pullMerge
  | rebaseAbort
  | mergeAbort
  | stageAll
  | commit (msg : String)
  | push
  | pushAll
deriving DecidableEq

/-! RepoStatus dataclass (git_ops.py lines 70-112). -/

/-- The `RepoStatus` dataclass. -/
structure RepoStatus where
  is_git_repo : Bool
  branch : Option String := none
  has_uncommitted_changes : Bool := false
  untracked_files : List String := []
  modified_files : List String := []
  staged_files : List String := []
  commits_ahead : Nat := 0
  commits_behind : Nat := 0
  upstream_branch : Option String := none
  can_fast_forward : Bool := false
  has_conflicts : Bool := false
deriving DecidableEq

/-- The `is_clean` property of `RepoStatus`. -/
def RepoStatus.is_clean (st : RepoStatus) : Bool :=
  !st.has_uncommitted_changes && st.untracked_files.isEmpty &&
  st.modified_files.isEmpty && st.staged_files.isEmpty

/-! get_repo_status (git_ops.py lines 754-962), GitPython branch.
`_check_git_installed()` runs before the try block, so a missing git tool
does raise; everything after the not-a-repo check is wrapped in a handler
that returns `RepoStatus(is_git_repo=False)` on any exception (lines
958-962), and the upstream/fetch block swallows its own failures (lines
794-821), falling back to zero ahead/behind counts. -/

/-- Embedding of `get_repo_status`. -/
def get_repo_status (env : GitEnv) (s : RepoState) : Except GitErr RepoStatus :=
  if !env.gitInstalled then
    .error (.notInstalled "Git is not installed or not in PATH"
      (some "Please install Git: https://git-scm.com/downloads"))
  else if !s.isRepo then
    .ok { is_git_repo := false }
  else if env.statusFailure then
    .ok { is_git_repo := false }
  else
    let branch := s.branch
    let upstreamInfo :=
      match branch, s.upstream with
      | some _, some u => (some u, s.commitsAhead, s.commitsBehind, s.canFastForward)
      | _, _ => ((none : Option String), 0, 0, false)
    let untracked := s.untrackedFiles
    let modified := s.modifiedFiles
    let staged := s.stagedFiles
    let hasChanges := !(untracked.isEmpty && modified.isEmpty && staged.isEmpty)
    .ok { is_git_repo := true
          branch := branch
          has_uncommitted_changes := hasChanges
          untracked_files := untracked
          modified_files := modified
          staged_files := staged
          commits_ahead := upstreamInfo.2.1
          commits_behind := upstreamInfo.2.2.1
          upstream_branch := upstreamInfo.1
          can_fast_forward := upstreamInfo.2.2.2
          has_conflicts := s.conflictEntries }

/-! setup_remote (git_ops.py lines 404-540), GitPython branch. -/

/-- URL rewriting of the `auth_method == "ssh"` branch (lines 438-445):
Python `url.replace(prefix, "")` replaces every occurrence, and the result
is spliced after the `git@host:` prefix. -/
def sshRewrite (url : String) : String :=
  if pyStartsWith url "https://github.com/" then
    "git@github.com:" ++ pyReplace url "https://github.com/" ""
  else if pyStartsWith url "https://gitlab.com/" then
    "git@gitlab.com:" ++ pyReplace url "https://gitlab.com/" ""
  else url

/-- URL normalization of `setup_remote` (lines 435-453): strip, then
rewrite for ssh, pass through for https, and reject any other method with
a `GitError`. -/
def normalizeUrl (auth_method remote_url : String) : Except GitErr String :=
  let url := pyStrip remote_url
  if auth_method == "ssh" then .ok (sshRewrite url)
  else if auth_method == "https" then .ok url
  else .error (.generic ("Unknown auth method: " ++ auth_method)
    (some "Use ssh or https"))

/-- Result dictionary of a successful `setup_remote`.  The Python dicts
omit the `updated` key except in the update branch and the `auth_method`
key except in the create branch; an absent key is modelled as the default
(`false` / `none`).  Messages drop the Python quote characters around the
remote name. -/
structure SetupRemoteOk where
  message : String
  remote_name : String
  url : String
  created : Bool
  updated : Bool := false
  auth_method : Option String := none
deriving DecidableEq

/-- Embedding of `setup_remote` (GitPython branch: look the remote up, then
no-op / update / create). -/
def setup_remote (env : GitEnv) (vault_path : String) (s : RepoState)
    (remote_url : String) (remote_name : String) (auth_method : String) :
    Except GitErr SetupRemoteOk × RepoState :=
  if !env.gitInstalled then
    (.error (.notInstalled "Git is not installed or not in PATH"
      (some "Please install Git: https://git-scm.com/downloads")), s)
  else if !s.isRepo then
    (.error (.notARepo (vault_path ++ " is not a Git repository")
      (some "Run init_git_repo() first")), s)
  else
    match normalizeUrl auth_method remote_url with
    | .error e => (.error e, s)
    | .ok url =>
      match lookupRemote s.remotes remote_name with
      | some existing_url =>
        if existing_url == url then
          (.ok { message := "Remote " ++ remote_name ++ " already exists with same URL"
                 remote_name := remote_name
                 url := url
                 created := false }, s)
        else
          (.ok { message := "Remote " ++ remote_name ++ " updated"
                 remote_name := remote_name
                 url := url
                 created := false
                 updated := true },
           { s with remotes := setRemoteUrl s.remotes remote_name url })
      | none =>
        (.ok { message := "Remote " ++ remote_name ++ " added successfully"
               remote_name := remote_name
               url := url
               created := true
               auth_method := some auth_method },
         { s with remotes := s.remotes ++ [(remote_name, url)] })

/-! pull_changes (git_ops.py lines 965-1156), GitPython branch.  The dirty
check runs before any fetch; fetch needs the `origin` remote (a missing
origin raises AttributeError, wrapped by the outer handler into a
`GitError`); a missing upstream is a configuration `GitError`; on a pull
failure whose text contains "conflict" the code runs `git rebase --abort`
(swallowing its failure) and raises `MergeConflictError` — it never runs
`git merge --abort`, whatever the `rebase` flag was. -/

/-- Effect of `git rebase --abort`: restores the pre-rebase tree when a
rebase is in progress; otherwise the command fails and changes nothing
(the caller swallows that failure, lines 1048-1051). -/
def rebaseAbort (s : RepoState) : RepoState :=
  if s.rebaseInProgress then
    { s with rebaseInProgress := false, conflictEntries := false }
  else s

/-- Tree left behind by a conflicted pull: a rebase conflict stops
mid-rebase, a merge conflict stops mid-merge, both with unmerged entries. -/
def conflictedPullState (rebase : Bool) (s : RepoState) : RepoState :=
  if rebase then { s with rebaseInProgress := true, conflictEntries := true }
  else { s with mergeInProgress := true, conflictEntries := true }

/-- Effect of a successful pull: the local branch absorbs the remote
commits it was behind. -/
def integratedPullState (s : RepoState) : RepoState :=
  { s with commitsBehind := 0 }

/-- Result dictionary of a successful `pull_changes` (lines 1139-1144). -/
structure PullOk where
  message : String
  path : String
  rebase : Bool
deriving DecidableEq

/-- Embedding of `pull_changes`. -/
def pull_changes (env : GitEnv) (vault_path : String) (s : RepoState)
    (rebase : Bool) : Except GitErr PullOk × RepoState × List Cmd :=
  if !env.gitInstalled then
    (.error (.notInstalled "Git is not installed or not in PATH"
      (some "Please install Git: https://git-scm.com/downloads")), s, [])
  else if !s.isRepo then
    (.error (.notARepo (vault_path ++ " is not a Git repository")
      (some "Run init_git_repo() first")), s, [])
  else if s.dirtyTracked then
    (.error (.generic "Cannot pull with uncommitted changes"
      (some "Commit or stash your changes first")), s, [])
  else
    match s.branch with
    | none =>
      (.error (.generic "Cannot pull in detached HEAD state"
        (some "Checkout a branch first")), s, [])
    | some branch =>
      match lookupRemote s.remotes "origin" with
      | none =>
        (.error (.generic "Failed to pull changes: no remote named origin"
          (some "Check your network connection and remote configuration")), s, [])
      | some _ =>
        match env.fetchError with
        | some msg =>
          if pyIn "authentication" (pyLower msg) then
            (.error (.auth "Authentication failed during fetch"
              (some "Check your SSH keys or credentials")), s, [.fetch])
          else
            (.error (.generic ("Failed to pull changes: " ++ msg)
              (some "Check your network connection and remote configuration")),
             s, [.fetch])
        | none =>
          let s1 : RepoState := { s with fetched := true }
          match s1.upstream with
          | none =>
            (.error (.generic "No upstream branch configured"
              (some ("Set upstream with: git branch --set-upstream-to=origin/"
                ++ branch))), s1, [.fetch])
          | some _ =>
            let pullCmd := if rebase then Cmd.pullRebase else Cmd.pullMerge
            match env.pullError with
            | none =>
              (.ok { message := "Pull completed successfully"
                     path := vault_path
                     rebase := rebase },
               integratedPullState s1, [.fetch, pullCmd])
            | some msg =>
              if pyIn "conflict" (pyLower msg) then
                (.error (.mergeConflict "Pull resulted in merge conflicts"
                  (some "Resolve conflicts manually and continue")),
                 rebaseAbort (conflictedPullState rebase s1),
                 [.fetch, pullCmd, .rebaseAbort])
              else if pyIn "authentication" (pyLower msg) then
                (.error (.auth "Authentication failed"
                  (some "Check your SSH keys or credentials")),
                 s1, [.fetch, pullCmd])
              else
                (.error (.generic ("Pull failed: " ++ msg) none),
                 s1, [.fetch, pullCmd])

/-! push_changes (git_ops.py lines 1159-1321), GitPython branch. -/

/-- Auto-generated commit message (lines 1192-1195); `now` is the
formatted `datetime.now()` timestamp. -/
def autoMessage (now : String) : String :=
  "Vault sync: " ++ now

/-- Result dictionary of a successful `push_changes` (lines 1302-1309). -/
structure PushOk where
  message : String
  path : String
  committed : Bool
  pushed : Bool
  commit_message : Option String
deriving DecidableEq

/-- Tree after `git add -A` + `repo.index.commit`: everything that was
staged, modified or untracked is now committed. -/
def committedState (s : RepoState) : RepoState :=
  { s with stagedFiles := [], modifiedFiles := [], untrackedFiles := [] }

/-- Embedding of `push_changes`.  A missing `origin` remote (ValueError
from `repo.remote`) or a detached HEAD at the branch lookup escape to the
outer handler, which wraps them in a generic `GitError` (lines 1317-1321). -/
def push_changes (env : GitEnv) (vault_path : String) (s : RepoState)
    (message : Option String) (push_all_branches : Bool) (now : String) :
    Except GitErr PushOk × RepoState × List Cmd :=
  if !env.gitInstalled then
    (.error (.notInstalled "Git is not installed or not in PATH"
      (some "Please install Git: https://git-scm.com/downloads")), s, [])
  else if !s.isRepo then
    (.error (.notARepo (vault_path ++ " is not a Git repository")
      (some "Run init_git_repo() first")), s, [])
  else
    let msg := message.getD (autoMessage now)
    let step :=
      if s.dirtyAll then
        (true, committedState s, [Cmd.stageAll, Cmd.commit msg])
      else
        (false, s, ([] : List Cmd))
    let committed := step.1
    let s1 := step.2.1
    let tr1 := step.2.2
    match lookupRemote s1.remotes "origin" with
    | none =>
      (.error (.generic "Failed to push changes: no remote named origin"
        (some "Check your network connection and remote configuration")),
       s1, tr1)
    | some _ =>
      let finish : Option Cmd → Except GitErr PushOk × RepoState × List Cmd :=
        fun pushCmd =>
          match pushCmd with
          | none =>
            (.error (.generic "Failed to push changes: detached HEAD"
              (some "Check your network connection and remote configuration")),
             s1, tr1)
          | some c =>
            match env.pushError with
            | none =>
              (.ok { message := "Changes pushed successfully"
                     path := vault_path
                     committed := committed
                     pushed := true
                     commit_message := if committed then some msg else none },
               s1, tr1 ++ [c])
            | some m =>
              if pyIn "rejected" (pyLower m) then
                (.error (.pushRejected "Push was rejected by remote"
                  (some "Pull changes first to resolve any conflicts")),
                 s1, tr1 ++ [c])
              else if pyIn "authentication" (pyLower m)
                  || pyIn "permission" (pyLower m) then
                (.error (.auth "Authentication failed during push"
                  (some "Check your SSH keys or credentials")),
                 s1, tr1 ++ [c])
              else
                (.error (.generic ("Push failed: " ++ m) none),
                 s1, tr1 ++ [c])
      if push_all_branches then
        finish (some .pushAll)
      else
        match s1.branch with
        | none => finish none
        | some _ => finish (some .push)

/-! quick_sync (git_ops.py lines 1326-1360): pull first, recording its
outcome; only on success push (committing if needed), recording that
outcome; `success` only when both stages succeeded.  Every exception the
two stages raise is a `GitError` subclass, so the `except GitError`
handlers catch everything. -/

deriving instance DecidableEq for Except

/-- The `operations` sub-dictionary of the quick_sync result: a stage that
was never attempted has no entry (`none`). -/
structure SyncOps where
  pull : Option (Except GitErr PullOk)
  push : Option (Except GitErr PushOk)
deriving DecidableEq

/-- Result dictionary of `quick_sync`. -/
structure SyncResult where
  success : Bool
  operations : SyncOps
  path : String
deriving DecidableEq

/-- Embedding of `quick_sync`: `pull_changes` with the default
`rebase=True`, then `push_changes` with the default `push_all=False`. -/
def quick_sync (env : GitEnv) (vault_path : String) (s : RepoState)
    (message : Option String) (now : String) :
    SyncResult × RepoState × List Cmd :=
  let pl := pull_changes env vault_path s true
  match pl.1 with
  | .error e =>
    ({ success := false
       operations := { pull := some (.error e), push := none }
       path := vault_path }, pl.2.1, pl.2.2)
  | .ok pok =>
    let ps := push_changes env vault_path pl.2.1 message false now
    match ps.1 with
    | .error e =>
      ({ success := false
         operations := { pull := some (.ok pok), push := some (.error e) }
         path := vault_path }, ps.2.1, pl.2.2 ++ ps.2.2)
    | .ok pushOk =>
      ({ success := true
         operations := { pull := some (.ok pok), push := some (.ok pushOk) }
         path := vault_path }, ps.2.1, pl.2.2 ++ ps.2.2)

end ObsidianGitBridge

/-! Class wrappers.  Both `git_operations.py` (lines 40-42) and
`wrappers.py` (lines 38-40) define
`GitOperations.setup_remote(self, url, auth_method="ssh")` whose body is
`setup_remote(self.vault_path, url, auth_method)`: the `auth_method`
string is the third positional argument of `git_ops.setup_remote`, so it
binds to `remote_name`, and `auth_method` keeps its default `"ssh"`. -/

namespace git_operations

/-- The `GitOperations.setup_remote` method of `git_operations.py`:
positional call into `git_ops.setup_remote`. -/
def GitOperations.setup_remote (env : ObsidianGitBridge.GitEnv)
    (vault_path : String) (s : ObsidianGitBridge.RepoState)
    (url : String) (auth_method : String) :
    Except ObsidianGitBridge.GitErr ObsidianGitBridge.SetupRemoteOk ×
      ObsidianGitBridge.RepoState :=
  ObsidianGitBridge.setup_remote env vault_path s url auth_method "ssh"

end git_operations

namespace wrappers

/-- The `GitOperations.setup_remote` method of `wrappers.py`: the same
positional call into `git_ops.setup_remote`. -/
def GitOperations.setup_remote (env : ObsidianGitBridge.GitEnv)
    (vault_path : String) (s : ObsidianGitBridge.RepoState)
    (url : String) (auth_method : String) :
    Except ObsidianGitBridge.GitErr ObsidianGitBridge.SetupRemoteOk ×
      ObsidianGitBridge.RepoState :=
  ObsidianGitBridge.setup_remote env vault_path s url auth_method "ssh"

end wrappers

/-! Doctor (doctor.py).  `run_checks` appends zero or one issue per check;
with `fix=True` it then calls `_attempt_fixes` (lines 144-173), which
walks the issue list and, per fixable issue, performs the fix action:
`"init"` imports `GitOperations` from `.git_ops`, `"gitignore"` imports
`ObsidianConfig` from `.obsidian_config`, `"user_config"` writes the
default identity catching only `GitCommandError`.  Imports and fix calls
for `"init"`/`"gitignore"` are not wrapped in any try/except. -/

namespace doctor

/-- An issue dictionary.  The Python dict gains a `"fixed": True` key when
a fix succeeds; an absent key is modelled as `fixed = false`. -/
structure Issue where
  severity : String
  message : String
  fixable : Bool
  fix_action : Option String
  fixed : Bool := false
deriving DecidableEq

/-- The issue appended by `_check_git_initialized` (doctor.py lines 36-45). -/
def initIssue : Issue :=
  { severity := "error"
    message := "Git repository not initialized"
    fixable := true
    fix_action := some "init" }

/-- The issue appended by `_check_gitignore_exists` (lines 47-56). -/
def gitignoreIssue : Issue :=
  { severity := "warning"
    message := ".gitignore not found (Obsidian workspace files may be tracked)"
    fixable := true
    fix_action := some "gitignore" }

/-- The user.name issue appended by `_check_user_config` (lines 92-100). -/
def userNameIssue : Issue :=
  { severity := "warning"
    message := "Git user.name not configured"
    fixable := true
    fix_action := some "user_config" }

/-- Top-level names defined by the module `git_ops.py`: `GitOperations` is
not among them, so `from .git_ops import GitOperations` raises
ImportError. -/
def gitOpsExports : List String :=
  ["logger", "GITPYTHON_AVAILABLE", "GitError", "GitNotInstalledError",
   "NotAGitRepoError", "RemoteAlreadyExistsError", "MergeConflictError",
   "AuthenticationError", "PushRejectedError", "RepoStatus",
   "_check_git_installed", "_is_git_repo", "_get_repo", "init_git_repo",
   "DEFAULT_GITIGNORE", "configure_gitignore", "setup_remote",
   "initial_commit", "get_repo_status", "pull_changes", "push_changes",
   "quick_sync", "get_git_info"]

/-- Top-level names defined by the module `obsidian_config.py`:
`ObsidianConfig` is not among them either (that class lives in
`wrappers.py`), so `from .obsidian_config import ObsidianConfig` raises
ImportError. -/
def obsidianConfigExports : List String :=
  ["DEFAULT_VAULT_PATHS", "DEFAULT_OBSIDIAN_GIT_CONFIG", "VaultError",
   "PluginConfigError", "find_vault_path", "_is_vault_directory",
   "validate_vault", "get_vault_name", "configure_obsidian_git_plugin",
   "get_vault_info"]

/-- Python exceptions that can escape the fix pass. -/
inductive PyExc where
  | importError (message : String)
  | otherError (message : String)
deriving DecidableEq

/-- A `from <module> import <name>` statement. -/
def importFrom (exports : List String) (name : String) : Except PyExc Unit :=
  if exports.contains name then .ok ()
  else .error (.importError ("cannot import name " ++ name))

/-- Whether the mutating fix operations would fail, and how:
`initRepoFails`/`gitignoreFails` are exceptions their calls would raise
(reached only if the import succeeded), `userConfigGitError` says the
identity write raises `GitCommandError`. -/
structure FixEnv where
  initRepoFails : Option String
  gitignoreFails : Option String
  userConfigGitError : Bool
deriving DecidableEq

/-- Fix attempt for a single issue, following the `_attempt_fixes` loop
body (lines 146-173).  Only the `"user_config"` action has a try/except,
and it catches only `GitCommandError`. -/
def fixOne (env : FixEnv) (issue : Issue) : Except PyExc Issue :=
  if !issue.fixable then .ok issue
  else
    match issue.fix_action with
    | some "init" =>
      match importFrom gitOpsExports "GitOperations" with
      | .error e => .error e
      | .ok _ =>
        match env.initRepoFails with
        | some m => .error (.otherError m)
        | none => .ok { issue with fixed := true }
    | some "gitignore" =>
      match importFrom obsidianConfigExports "ObsidianConfig" with
      | .error e => .error e
      | .ok _ =>
        match env.gitignoreFails with
        | some m => .error (.otherError m)
        | none => .ok { issue with fixed := true }
    | some "user_config" =>
      if env.userConfigGitError then .ok issue
      else .ok { issue with fixed := true }
    | _ => .ok issue

/-- Embedding of `Doctor._attempt_fixes`: the issues are mutated in place,
so when an exception escapes mid-loop the already-processed prefix keeps
its marks and the remaining issues are untouched; the error carries the
issue list as it stood when the exception escaped. -/
def attemptFixes (env : FixEnv) : List Issue → Except (PyExc × List Issue) (List Issue)
  | [] => .ok []
  | i :: rest =>
    match fixOne env i with
    | .error e => .error (e, i :: rest)
    | .ok i2 =>
      match attemptFixes env rest with
      | .error er => .error (er.1, i2 :: er.2)
      | .ok rest2 => .ok (i2 :: rest2)

/-- Fix environment where every mutating fix call would succeed. -/
def fixEnvOk : FixEnv :=
  { initRepoFails := none, gitignoreFails := none, userConfigGitError := false }

/-- Fix environment where the identity write raises GitCommandError. -/
def fixEnvUserErr : FixEnv :=
  { initRepoFails := none, gitignoreFails := none, userConfigGitError := true }

end doctor

namespace ObsidianGitBridge

/-! Concrete fixtures used by witnesses and counterexamples. -/

/-- Environment where git is installed and every external command succeeds. -/
def envOk : GitEnv :=
  { gitInstalled := true, fetchError := none, pullError := none,
    pushError := none, statusFailure := false }

/-- Environment where the pull integration fails with a conflict message. -/
def envConflict : GitEnv :=
  { envOk with pullError := some "merge conflict in notes.md" }

/-- A clean repository on branch main, tracking origin/main. -/
def cleanRepo : RepoState :=
  { isRepo := true, branch := some "main", upstream := some "origin/main"
    remotes := [("origin", "git@github.com:acme/notes.git")]
    stagedFiles := [], modifiedFiles := [], untrackedFiles := []
    conflictEntries := false, mergeInProgress := false
    rebaseInProgress := false, commitsAhead := 0, commitsBehind := 0
    canFastForward := true, fetched := false }

/-- A repository with no remotes configured yet. -/
def freshRepo : RepoState := { cleanRepo with remotes := [] }

/-- A repository with a modified tracked file. -/
def dirtyRepo : RepoState := { cleanRepo with modifiedFiles := ["note.md"] }

/-- A directory that is not a git repository. -/
def nonRepo : RepoState := { freshRepo with isRepo := false, branch := none, upstream := none }

/-- A repository whose only changes are untracked files. -/
def untrackedRepo : RepoState := { cleanRepo with untrackedFiles := ["new.md"] }

/-! Shared helper lemmas about the remote table. -/

/-- Appending a freshly created remote makes it visible to lookup. -/
theorem lookupRemote_append_self (rs : List (String × String)) (name v : String)
    (h : lookupRemote rs name = none) :
    lookupRemote (rs ++ [(name, v)]) name = some v := by
  induction rs with
  | nil => simp [lookupRemote, List.find?]
  | cons p rest ih =>
    unfold lookupRemote at h ⊢
    cases hp : (p.1 == name) with
    | true => simp [List.find?, hp] at h
    | false =>
      simp only [List.cons_append, List.find?, hp] at h ⊢
      exact ih h

/-- Updating the URL of a present remote is visible to lookup. -/
theorem lookupRemote_setRemoteUrl (rs : List (String × String)) (name v eu : String)
    (h : lookupRemote rs name = some eu) :
    lookupRemote (setRemoteUrl rs name v) name = some v := by
  induction rs with
  | nil => simp [lookupRemote, List.find?] at h
  | cons p rest ih =>
    cases hp : (p.1 == name) with
    | true => simp [lookupRemote, setRemoteUrl, List.find?, hp]
    | false =>
      have h2 : lookupRemote rest name = some eu := by
        simpa [lookupRemote, List.find?, hp] using h
      simpa [lookupRemote, setRemoteUrl, List.find?, hp] using ih h2

end ObsidianGitBridge

namespace ObsidianGitBridge

/-- C1: for every path that is not a git repository, `get_repo_status`
returns `RepoStatus(is_git_repo=False)` and raises no error, and — given
the git tool is reachable — the status query is total: it returns a
status for every path and every internal outcome. -/
theorem get_repo_status_total (env : GitEnv) (s : RepoState)
    (hgit : env.gitInstalled = true) :
    (s.isRepo = false → get_repo_status env s = .ok { is_git_repo := false })
    ∧ ∃ st : RepoStatus, get_repo_status env s = .ok st := by
  constructor
  · intro hrepo
    simp [get_repo_status, hgit, hrepo]
  · unfold get_repo_status
    rw [hgit]
    simp only [Bool.not_true, Bool.false_eq_true, if_false]
    split
    · exact ⟨_, rfl⟩
    · split
      · exact ⟨_, rfl⟩
      · exact ⟨_, rfl⟩

/-- C1 witness: concrete evaluation on a non-repository path. -/
theorem get_repo_status_total_witness :
    (get_repo_status envOk nonRepo = .ok { is_git_repo := false })
    ∧ ∃ st : RepoStatus, get_repo_status envOk nonRepo = .ok st := by
  have h := get_repo_status_total envOk nonRepo (by decide)
  exact ⟨h.1 (by decide), h.2⟩

/-- C4: on a repository whose working tree has uncommitted (tracked)
changes, `pull_changes` fails with the generic `GitError` whose
message/details instruct the caller to commit or stash first, the state is
returned unchanged, and no git command that touches the tree is executed
(the dirty check precedes the fetch). -/
theorem pull_changes_refuses_dirty_tree (env : GitEnv) (vp : String)
    (s : RepoState) (rebase : Bool)
    (hgit : env.gitInstalled = true) (hrepo : s.isRepo = true)
    (hdirty : s.dirtyTracked = true) :
    pull_changes env vp s rebase =
      (.error (.generic "Cannot pull with uncommitted changes"
        (some "Commit or stash your changes first")), s, []) := by
  simp [pull_changes, hgit, hrepo, hdirty]

/-- C4 witness: concrete dirty repository. -/
theorem pull_changes_refuses_dirty_tree_witness :
    pull_changes envOk "vault" dirtyRepo true =
      (.error (.generic "Cannot pull with uncommitted changes"
        (some "Commit or stash your changes first")), dirtyRepo, []) :=
  pull_changes_refuses_dirty_tree envOk "vault" dirtyRepo true
    (by decide) (by decide) (by decide)

/-- C8: evaluation of the fix pass at the failing input.  On the fixable
issue produced by a missing `.git` directory the fix pass raises
ImportError out of `_attempt_fixes` (git_ops.py defines no
`GitOperations`), leaving the issue unmarked; the `gitignore` action fails
the same way (`obsidian_config.py` defines no `ObsidianConfig`); only the
`user_config` action matches the claimed behavior, marking the issue on
success and swallowing a GitCommandError without marking it. -/
theorem doctor_fix_pass_raises_import_error :
    doctor.attemptFixes doctor.fixEnvOk [doctor.initIssue] =
      .error (.importError "cannot import name GitOperations", [doctor.initIssue])
    ∧ doctor.attemptFixes doctor.fixEnvOk [doctor.gitignoreIssue] =
      .error (.importError "cannot import name ObsidianConfig", [doctor.gitignoreIssue])
    ∧ doctor.attemptFixes doctor.fixEnvOk [doctor.userNameIssue] =
      .ok [{ doctor.userNameIssue with fixed := true }]
    ∧ doctor.attemptFixes doctor.fixEnvUserErr [doctor.userNameIssue] =
      .ok [doctor.userNameIssue] := by
  decide

/-- C2 counterexample: with `rebase=false` a conflicting pull raises
`MergeConflictError`, but the only abort the code attempts is
`git rebase --abort`, which does nothing for a merge: the tree is left
mid-merge with conflict markers, not as it was before the call. -/
theorem pull_merge_conflict_counterexample :
    (pull_changes envConflict "vault" cleanRepo false).1 =
      .error (.mergeConflict "Pull resulted in merge conflicts"
        (some "Resolve conflicts manually and continue"))
    ∧ (pull_changes envConflict "vault" cleanRepo false).2.1.mergeInProgress = true
    ∧ (pull_changes envConflict "vault" cleanRepo false).2.1.conflictEntries = true
    ∧ cleanRepo.mergeInProgress = false
    ∧ cleanRepo.conflictEntries = false
    ∧ (pull_changes envConflict "vault" cleanRepo false).2.2 =
        [Cmd.fetch, Cmd.pullMerge, Cmd.rebaseAbort] := by
  decide

/-- C2 amended: on a conflicting pull, `MergeConflictError` is raised in
both modes, but the automatic abort (always `git rebase --abort`, never
`git merge --abort`) restores the pre-call tree only for a rebase pull;
for a merge pull (`rebase=false`) the conflicted merge state remains. -/
theorem pull_conflict_abort (env : GitEnv) (vp : String) (s : RepoState)
    (b u ou msg : String)
    (hgit : env.gitInstalled = true) (hrepo : s.isRepo = true)
    (hclean : s.dirtyTracked = false) (hbr : s.branch = some b)
    (horigin : lookupRemote s.remotes "origin" = some ou)
    (hfetch : env.fetchError = none) (hup : s.upstream = some u)
    (hpull : env.pullError = some msg)
    (hconf : pyIn "conflict" (pyLower msg) = true)
    (hnoreb : s.rebaseInProgress = false)
    (hnoconf : s.conflictEntries = false) :
    pull_changes env vp s true =
      (.error (.mergeConflict "Pull resulted in merge conflicts"
        (some "Resolve conflicts manually and continue")),
       { s with fetched := true }, [.fetch, .pullRebase, .rebaseAbort])
    ∧ pull_changes env vp s false =
      (.error (.mergeConflict "Pull resulted in merge conflicts"
        (some "Resolve conflicts manually and continue")),
       { s with fetched := true, mergeInProgress := true, conflictEntries := true },
       [.fetch, .pullMerge, .rebaseAbort]) := by
  constructor <;>
    simp [pull_changes, conflictedPullState, rebaseAbort,
      hgit, hrepo, hclean, hbr, horigin, hfetch, hup, hpull, hconf,
      hnoreb, hnoconf]

/-- C2 witness: concrete conflicting pull in both modes. -/
theorem pull_conflict_abort_witness :
    pull_changes envConflict "vault" cleanRepo true =
      (.error (.mergeConflict "Pull resulted in merge conflicts"
        (some "Resolve conflicts manually and continue")),
       { cleanRepo with fetched := true }, [.fetch, .pullRebase, .rebaseAbort])
    ∧ pull_changes envConflict "vault" cleanRepo false =
      (.error (.mergeConflict "Pull resulted in merge conflicts"
        (some "Resolve conflicts manually and continue")),
       { cleanRepo with fetched := true, mergeInProgress := true,
                        conflictEntries := true },
       [.fetch, .pullMerge, .rebaseAbort]) :=
  pull_conflict_abort envConflict "vault" cleanRepo "main" "origin/main"
    "git@github.com:acme/notes.git" "merge conflict in notes.md"
    (by decide) (by decide) (by decide) (by decide) (by decide) (by decide)
    (by decide) (by decide) (by decide) (by decide) (by decide)

/-- Shared lemma: whenever normalization succeeds, `setup_remote` on an
installed-git repository reports the normalized URL, whichever of the
no-op / update / create branches it takes. -/
theorem setup_remote_ok_url (env : GitEnv) (vp name a ru v : String)
    (s : RepoState) (hgit : env.gitInstalled = true) (hrepo : s.isRepo = true)
    (hn : normalizeUrl a ru = .ok v) :
    ∃ r : SetupRemoteOk, (setup_remote env vp s ru name a).1 = .ok r ∧ r.url = v := by
  cases hl : lookupRemote s.remotes name with
  | none =>
    exact ⟨{ message := "Remote " ++ name ++ " added successfully",
             remote_name := name, url := v, created := true,
             auth_method := some a },
           by simp [setup_remote, hgit, hrepo, hn, hl], rfl⟩
  | some eu =>
    by_cases he : eu = v
    · exact ⟨{ message := "Remote " ++ name ++ " already exists with same URL",
               remote_name := name, url := v, created := false },
             by simp [setup_remote, hgit, hrepo, hn, hl, he], rfl⟩
    · exact ⟨{ message := "Remote " ++ name ++ " updated",
               remote_name := name, url := v, created := false,
               updated := true },
             by simp [setup_remote, hgit, hrepo, hn, hl, he], rfl⟩

/-- C5 counterexample: the ssh rewrite keeps the `.git` suffix, so the
resulting URL is `git@github.com:acme/notes.git`, not the
`git@github.com:acme/notes` the claim states. -/
theorem setup_remote_dotgit_counterexample :
    (setup_remote envOk "vault" freshRepo "https://github.com/acme/notes.git"
        "origin" "ssh").1 =
      .ok { message := "Remote origin added successfully",
            remote_name := "origin", url := "git@github.com:acme/notes.git",
            created := true, auth_method := some "ssh" }
    ∧ ("git@github.com:acme/notes.git" : String) ≠ "git@github.com:acme/notes" := by
  decide

/-- C5 amended: with `auth_method="ssh"`, `https://github.com/acme/notes.git`
is rewritten to `git@github.com:acme/notes.git` (the `.git` suffix is kept)
and the GitLab URL equivalently; a stripped URL of any other host passes
through unchanged, every stripped URL passes through unchanged under
`auth_method="https"`, and any other auth method is a configuration error. -/
theorem setup_remote_ssh_normalization (env : GitEnv) (vp name url a : String)
    (s : RepoState) (hgit : env.gitInstalled = true) (hrepo : s.isRepo = true) :
    (∃ r : SetupRemoteOk,
      (setup_remote env vp s "https://github.com/acme/notes.git" name "ssh").1 = .ok r
      ∧ r.url = "git@github.com:acme/notes.git")
    ∧ (∃ r : SetupRemoteOk,
      (setup_remote env vp s "https://gitlab.com/acme/notes.git" name "ssh").1 = .ok r
      ∧ r.url = "git@gitlab.com:acme/notes.git")
    ∧ (pyStrip url = url → pyStartsWith url "https://github.com/" = false →
        pyStartsWith url "https://gitlab.com/" = false →
        normalizeUrl "ssh" url = .ok url)
    ∧ (pyStrip url = url → normalizeUrl "https" url = .ok url)
    ∧ (a ≠ "ssh" → a ≠ "https" →
        normalizeUrl a url =
          .error (.generic ("Unknown auth method: " ++ a)
            (some "Use ssh or https"))) := by
  refine ⟨setup_remote_ok_url env vp name "ssh" _ _ s hgit hrepo (by decide),
          setup_remote_ok_url env vp name "ssh" _ _ s hgit hrepo (by decide),
          ?_, ?_, ?_⟩
  · intro h1 h2 h3
    simp [normalizeUrl, sshRewrite, h1, h2, h3]
  · intro h1
    simp [normalizeUrl, h1]
  · intro h1 h2
    simp [normalizeUrl, beq_eq_false_iff_ne.mpr h1, beq_eq_false_iff_ne.mpr h2]

/-- C5 witness: concrete instances of each normalization case. -/
theorem setup_remote_ssh_normalization_witness :
    (∃ r : SetupRemoteOk,
      (setup_remote envOk "vault" freshRepo "https://github.com/acme/notes.git"
          "origin" "ssh").1 = .ok r
      ∧ r.url = "git@github.com:acme/notes.git")
    ∧ normalizeUrl "ssh" "ssh://example.com/repo" = .ok "ssh://example.com/repo"
    ∧ normalizeUrl "https" "ssh://example.com/repo" = .ok "ssh://example.com/repo"
    ∧ normalizeUrl "token" "ssh://example.com/repo" =
        .error (.generic ("Unknown auth method: " ++ "token")
          (some "Use ssh or https")) := by
  have h := setup_remote_ssh_normalization envOk "vault" "origin"
    "ssh://example.com/repo" "token" freshRepo (by decide) (by decide)
  exact ⟨h.1, h.2.2.1 (by decide) (by decide) (by decide),
         h.2.2.2.1 (by decide), h.2.2.2.2 (by decide) (by decide)⟩

/-- Shared lemma: a failed `normalizeUrl` produces the generic `GitError`
kind, never `RemoteAlreadyExistsError`. -/
theorem normalizeUrl_error_not_remote_exists (a u : String) (e : GitErr)
    (h : normalizeUrl a u = .error e) : e.isRemoteExists = false := by
  unfold normalizeUrl at h
  split at h
  · exact Except.noConfusion h
  · split at h
    · exact Except.noConfusion h
    · injection h with h2
      subst h2
      rfl

/-- C9: `setup_remote` never raises `RemoteAlreadyExistsError` — every
error it can return is of another kind — and an existing same-name remote
is handled as data: identical (normalized) URL reports success with
`created=false`, different URL updates the stored URL in place. -/
theorem setup_remote_never_remote_exists (env : GitEnv) (vp : String)
    (s : RepoState) (u n a : String) :
    (∀ e : GitErr, (setup_remote env vp s u n a).1 = .error e →
      e.isRemoteExists = false)
    ∧ (∀ eu : String, env.gitInstalled = true → s.isRepo = true →
        lookupRemote s.remotes n = some eu → normalizeUrl a u = .ok eu →
        (setup_remote env vp s u n a).1 =
          .ok { message := "Remote " ++ n ++ " already exists with same URL",
                remote_name := n, url := eu, created := false }
        ∧ (setup_remote env vp s u n a).2 = s)
    ∧ (∀ eu v : String, env.gitInstalled = true → s.isRepo = true →
        lookupRemote s.remotes n = some eu → normalizeUrl a u = .ok v →
        eu ≠ v →
        (setup_remote env vp s u n a).1 =
          .ok { message := "Remote " ++ n ++ " updated", remote_name := n,
                url := v, created := false, updated := true }
        ∧ lookupRemote (setup_remote env vp s u n a).2.remotes n = some v) := by
  refine ⟨?_, ?_, ?_⟩
  · intro e he
    cases hg : env.gitInstalled with
    | false => simp [setup_remote, hg] at he; subst he; rfl
    | true =>
      cases hr : s.isRepo with
      | false => simp [setup_remote, hg, hr] at he; subst he; rfl
      | true =>
        cases hn : normalizeUrl a u with
        | error e2 =>
          simp [setup_remote, hg, hr, hn] at he
          subst he
          exact normalizeUrl_error_not_remote_exists a u e2 hn
        | ok v =>
          cases hl : lookupRemote s.remotes n with
          | none => simp [setup_remote, hg, hr, hn, hl] at he
          | some eu =>
            by_cases hev : eu = v
            · simp [setup_remote, hg, hr, hn, hl, hev] at he
            · simp [setup_remote, hg, hr, hn, hl, hev] at he
  · intro eu hg hr hl hn
    constructor <;> simp [setup_remote, hg, hr, hn, hl]
  · intro eu v hg hr hl hn hne
    refine ⟨by simp [setup_remote, hg, hr, hn, hl, hne], ?_⟩
    have h2 : (setup_remote env vp s u n a).2 =
        { s with remotes := setRemoteUrl s.remotes n v } := by
      simp [setup_remote, hg, hr, hn, hl, hne]
    rw [h2]
    exact lookupRemote_setRemoteUrl s.remotes n v eu hl

/-- C9 witness: concrete never-raises, same-URL and different-URL cases. -/
theorem setup_remote_never_remote_exists_witness :
    (GitErr.notARepo ("vault" ++ " is not a Git repository")
        (some "Run init_git_repo() first")).isRemoteExists = false
    ∧ (setup_remote envOk "vault" cleanRepo "git@github.com:acme/notes.git"
          "origin" "https").1 =
        .ok { message := "Remote " ++ "origin" ++ " already exists with same URL",
              remote_name := "origin", url := "git@github.com:acme/notes.git",
              created := false }
    ∧ (setup_remote envOk "vault" cleanRepo "git@github.com:acme/other.git"
          "origin" "https").1 =
        .ok { message := "Remote " ++ "origin" ++ " updated",
              remote_name := "origin", url := "git@github.com:acme/other.git",
              created := false, updated := true } := by
  refine ⟨(setup_remote_never_remote_exists envOk "vault" nonRepo
      "git@github.com:acme/notes.git" "origin" "https").1 _ (by decide),
    ((setup_remote_never_remote_exists envOk "vault" cleanRepo
      "git@github.com:acme/notes.git" "origin" "https").2.1
      "git@github.com:acme/notes.git" (by decide) (by decide) (by decide)
      (by decide)).1,
    ((setup_remote_never_remote_exists envOk "vault" cleanRepo
      "git@github.com:acme/other.git" "origin" "https").2.2
      "git@github.com:acme/notes.git" "git@github.com:acme/other.git"
      (by decide) (by decide) (by decide) (by decide) (by decide)).1⟩

/-- C10: both class wrappers pass the auth-method string as the third
positional argument of `git_ops.setup_remote`, so it binds to
`remote_name`: the call equals `setup_remote` with `remote_name = a` and
`auth_method = "ssh"`, the remote that gets created is named after the
auth-method string, and the URL is always normalized by the ssh rules. -/
theorem wrapper_setup_remote_binds_name (env : GitEnv) (vp : String)
    (s : RepoState) (url a : String)
    (hgit : env.gitInstalled = true) (hrepo : s.isRepo = true)
    (hnone : lookupRemote s.remotes a = none) :
    git_operations.GitOperations.setup_remote env vp s url a =
      setup_remote env vp s url a "ssh"
    ∧ wrappers.GitOperations.setup_remote env vp s url a =
      setup_remote env vp s url a "ssh"
    ∧ (git_operations.GitOperations.setup_remote env vp s url a).1 =
        .ok { message := "Remote " ++ a ++ " added successfully",
              remote_name := a, url := sshRewrite (pyStrip url),
              created := true, auth_method := some "ssh" }
    ∧ lookupRemote (wrappers.GitOperations.setup_remote env vp s url a).2.remotes
        a = some (sshRewrite (pyStrip url)) := by
  have hn : normalizeUrl "ssh" url = .ok (sshRewrite (pyStrip url)) := by
    simp [normalizeUrl]
  refine ⟨rfl, rfl, ?_, ?_⟩
  · simp [git_operations.GitOperations.setup_remote, setup_remote,
      hgit, hrepo, hn, hnone]
  · have h2 : (wrappers.GitOperations.setup_remote env vp s url a).2 =
        { s with remotes := s.remotes ++ [(a, sshRewrite (pyStrip url))] } := by
      simp [wrappers.GitOperations.setup_remote, setup_remote,
        hgit, hrepo, hn, hnone]
    rw [h2]
    exact lookupRemote_append_self s.remotes a _ hnone

/-- C10 witness: asking the wrapper for `auth_method="https"` creates a
remote named `https` whose URL was still rewritten by the ssh rules. -/
theorem wrapper_setup_remote_binds_name_witness :
    git_operations.GitOperations.setup_remote envOk "vault" freshRepo
      "https://github.com/acme/notes.git" "https" =
      setup_remote envOk "vault" freshRepo "https://github.com/acme/notes.git"
        "https" "ssh"
    ∧ wrappers.GitOperations.setup_remote envOk "vault" freshRepo
        "https://github.com/acme/notes.git" "https" =
      setup_remote envOk "vault" freshRepo "https://github.com/acme/notes.git"
        "https" "ssh"
    ∧ (git_operations.GitOperations.setup_remote envOk "vault" freshRepo
        "https://github.com/acme/notes.git" "https").1 =
        .ok { message := "Remote " ++ "https" ++ " added successfully",
              remote_name := "https",
              url := sshRewrite (pyStrip "https://github.com/acme/notes.git"),
              created := true, auth_method := some "ssh" }
    ∧ lookupRemote (wrappers.GitOperations.setup_remote envOk "vault" freshRepo
        "https://github.com/acme/notes.git" "https").2.remotes "https" =
        some (sshRewrite (pyStrip "https://github.com/acme/notes.git")) :=
  wrapper_setup_remote_binds_name envOk "vault" freshRepo
    "https://github.com/acme/notes.git" "https"
    (by decide) (by decide) (by decide)

/-- C6 counterexample: after storing the ssh-normalized form of the first
URL, a second call with a URL that is different from the first but
normalizes to the stored one reports "already exists" with
`created=false` and no `updated=true`, refuting "a second call with a
different URL yields updated=true". -/
theorem setup_remote_update_counterexample :
    ("https://github.com/acme/notes" : String) ≠ "git@github.com:acme/notes"
    ∧ (setup_remote envOk "vault" freshRepo "https://github.com/acme/notes"
          "origin" "ssh").1 =
        .ok { message := "Remote origin added successfully",
              remote_name := "origin", url := "git@github.com:acme/notes",
              created := true, auth_method := some "ssh" }
    ∧ (setup_remote envOk "vault"
          (setup_remote envOk "vault" freshRepo "https://github.com/acme/notes"
            "origin" "ssh").2
          "git@github.com:acme/notes" "origin" "ssh").1 =
        .ok { message := "Remote origin already exists with same URL",
              remote_name := "origin", url := "git@github.com:acme/notes",
              created := false } := by
  decide

/-- C6 amended: remote idempotence holds up to URL normalization: the
first call on a repository without the remote reports `created=true` and
stores the normalized URL; a second call whose normalized URL equals the
stored one reports `created=false` with no update and leaves the state
unchanged (even if the raw URL differs); a second call with a different
normalized URL reports `updated=true` and the stored URL becomes the new
normalized URL. -/
theorem setup_remote_idempotent_normalized (env : GitEnv)
    (vp n a u1 u2 v1 v2 : String) (s : RepoState)
    (hgit : env.gitInstalled = true) (hrepo : s.isRepo = true)
    (hnone : lookupRemote s.remotes n = none)
    (hn1 : normalizeUrl a u1 = .ok v1)
    (hn2 : normalizeUrl a u2 = .ok v2) :
    (setup_remote env vp s u1 n a).1 =
      .ok { message := "Remote " ++ n ++ " added successfully",
            remote_name := n, url := v1, created := true,
            auth_method := some a }
    ∧ lookupRemote (setup_remote env vp s u1 n a).2.remotes n = some v1
    ∧ (v2 = v1 →
        (setup_remote env vp (setup_remote env vp s u1 n a).2 u2 n a).1 =
          .ok { message := "Remote " ++ n ++ " already exists with same URL",
                remote_name := n, url := v1, created := false }
        ∧ (setup_remote env vp (setup_remote env vp s u1 n a).2 u2 n a).2 =
            (setup_remote env vp s u1 n a).2)
    ∧ (v2 ≠ v1 →
        (setup_remote env vp (setup_remote env vp s u1 n a).2 u2 n a).1 =
          .ok { message := "Remote " ++ n ++ " updated", remote_name := n,
                url := v2, created := false, updated := true }
        ∧ lookupRemote
            (setup_remote env vp (setup_remote env vp s u1 n a).2 u2 n a).2.remotes
              n = some v2) := by
  have hs1 : setup_remote env vp s u1 n a =
      (.ok { message := "Remote " ++ n ++ " added successfully",
             remote_name := n, url := v1, created := true,
             auth_method := some a },
       { s with remotes := s.remotes ++ [(n, v1)] }) := by
    simp [setup_remote, hgit, hrepo, hn1, hnone]
  have hl1 : lookupRemote (s.remotes ++ [(n, v1)]) n = some v1 :=
    lookupRemote_append_self s.remotes n v1 hnone
  refine ⟨by rw [hs1], by rw [hs1]; exact hl1, ?_, ?_⟩
  · intro hv
    subst hv
    rw [hs1]
    constructor <;> simp [setup_remote, hgit, hrepo, hn2, hl1]
  · intro hv
    have hne : ¬ (v1 = v2) := fun he => hv he.symm
    rw [hs1]
    refine ⟨by simp [setup_remote, hgit, hrepo, hn2, hl1, hne], ?_⟩
    have hset : (setup_remote env vp { s with remotes := s.remotes ++ [(n, v1)] }
        u2 n a).2 =
        { s with remotes := setRemoteUrl (s.remotes ++ [(n, v1)]) n v2 } := by
      simp [setup_remote, hgit, hrepo, hn2, hl1, hne]
    rw [hset]
    exact lookupRemote_setRemoteUrl (s.remotes ++ [(n, v1)]) n v2 v1 hl1

/-- C6 witness: concrete create / no-op / update sequence. -/
theorem setup_remote_idempotent_normalized_witness :
    (setup_remote envOk "vault" freshRepo "https://github.com/acme/notes.git"
        "origin" "ssh").1 =
      .ok { message := "Remote " ++ "origin" ++ " added successfully",
            remote_name := "origin", url := "git@github.com:acme/notes.git",
            created := true, auth_method := some "ssh" }
    ∧ ((setup_remote envOk "vault"
          (setup_remote envOk "vault" freshRepo "https://github.com/acme/notes.git"
            "origin" "ssh").2
          "https://github.com/acme/notes.git" "origin" "ssh").1 =
        .ok { message := "Remote " ++ "origin" ++ " already exists with same URL",
              remote_name := "origin", url := "git@github.com:acme/notes.git",
              created := false })
    ∧ ((setup_remote envOk "vault"
          (setup_remote envOk "vault" freshRepo "https://github.com/acme/notes.git"
            "origin" "ssh").2
          "https://github.com/acme/other.git" "origin" "ssh").1 =
        .ok { message := "Remote " ++ "origin" ++ " updated",
              remote_name := "origin", url := "git@github.com:acme/other.git",
              created := false, updated := true }) := by
  have hsame := setup_remote_idempotent_normalized envOk "vault" "origin" "ssh"
    "https://github.com/acme/notes.git" "https://github.com/acme/notes.git"
    "git@github.com:acme/notes.git" "git@github.com:acme/notes.git" freshRepo
    (by decide) (by decide) (by decide) (by decide) (by decide)
  have hdiff := setup_remote_idempotent_normalized envOk "vault" "origin" "ssh"
    "https://github.com/acme/notes.git" "https://github.com/acme/other.git"
    "git@github.com:acme/notes.git" "git@github.com:acme/other.git" freshRepo
    (by decide) (by decide) (by decide) (by decide) (by decide)
  exact ⟨hsame.1, (hsame.2.2.1 rfl).1, (hdiff.2.2.2 (by decide)).1⟩

/-- C3: `quick_sync` contains each failure to its stage: a pull failure is
recorded under `operations.pull`, `success` stays false, and push is never
attempted (no push entry, state and trace are those of the pull alone);
after a successful pull the push outcome is recorded under
`operations.push`, and `success` is true exactly when push also
succeeded. -/
theorem quick_sync_stage_containment (env : GitEnv) (vp : String)
    (s : RepoState) (m : Option String) (now : String) :
    (∀ e : GitErr, (pull_changes env vp s true).1 = .error e →
      quick_sync env vp s m now =
        ({ success := false,
           operations := { pull := some (.error e), push := none },
           path := vp },
         (pull_changes env vp s true).2.1, (pull_changes env vp s true).2.2))
    ∧ (∀ pok : PullOk, (pull_changes env vp s true).1 = .ok pok →
        ((quick_sync env vp s m now).1.operations.pull = some (.ok pok)
         ∧ (quick_sync env vp s m now).1.operations.push =
             some (push_changes env vp (pull_changes env vp s true).2.1
               m false now).1
         ∧ ((quick_sync env vp s m now).1.success = true ↔
             ∃ pk : PushOk,
               (push_changes env vp (pull_changes env vp s true).2.1
                 m false now).1 = .ok pk))) := by
  constructor
  · intro e he
    simp [quick_sync, he]
  · intro pok hok
    cases hps : (push_changes env vp (pull_changes env vp s true).2.1
        m false now).1 with
    | error e => simp [quick_sync, hok, hps]
    | ok pk => simp [quick_sync, hok, hps]

/-- C3 witness: a failing pull never reaches push; a clean pull followed
by a successful push yields overall success. -/
theorem quick_sync_stage_containment_witness :
    quick_sync envOk "vault" dirtyRepo none "t" =
      ({ success := false,
         operations := { pull := some (.error (.generic
           "Cannot pull with uncommitted changes"
           (some "Commit or stash your changes first"))), push := none },
         path := "vault" },
       (pull_changes envOk "vault" dirtyRepo true).2.1,
       (pull_changes envOk "vault" dirtyRepo true).2.2)
    ∧ ((quick_sync envOk "vault" untrackedRepo none "t").1.success = true ↔
        ∃ pk : PushOk,
          (push_changes envOk "vault"
            (pull_changes envOk "vault" untrackedRepo true).2.1
            none false "t").1 = .ok pk) := by
  refine ⟨(quick_sync_stage_containment envOk "vault" dirtyRepo none "t").1
      _ (by decide),
    ((quick_sync_stage_containment envOk "vault" untrackedRepo none "t").2
      { message := "Pull completed successfully", path := "vault",
        rebase := true } (by decide)).2.2⟩

/-- Shared lemma: on an installed-git repository with an origin remote and
a checked-out branch, one `push_changes` call commits exactly when the
tree is dirty (with the supplied or auto-generated message), always ends
by attempting the push, and returns the committed tree as the new state. -/
theorem push_changes_components (env : GitEnv) (vp : String) (s : RepoState)
    (m : Option String) (now ou b : String)
    (hgit : env.gitInstalled = true) (hrepo : s.isRepo = true)
    (horigin : lookupRemote s.remotes "origin" = some ou)
    (hbr : s.branch = some b) :
    (push_changes env vp s m false now).2.1 =
      (if s.dirtyAll then committedState s else s)
    ∧ (push_changes env vp s m false now).2.2 =
        (if s.dirtyAll then
          [Cmd.stageAll, Cmd.commit (m.getD (autoMessage now))] else []) ++
          [Cmd.push]
    ∧ (env.pushError = none →
        (push_changes env vp s m false now).1 =
          .ok { message := "Changes pushed successfully", path := vp,
                committed := s.dirtyAll, pushed := true,
                commit_message := if s.dirtyAll
                  then some (m.getD (autoMessage now)) else none }) := by
  cases hd : s.dirtyAll with
  | true =>
    cases he : env.pushError with
    | none =>
      refine ⟨?_, ?_, fun _ => ?_⟩ <;>
        simp [push_changes, committedState, hgit, hrepo, hd, horigin, hbr, he]
    | some msg =>
      refine ⟨?_, ?_, fun hcontr => by simp [he] at hcontr⟩ <;>
      · simp only [push_changes, committedState, hgit, hrepo, hd, horigin,
          hbr, he, Bool.not_true, Bool.false_eq_true, if_false, if_true]
        repeat' split
        all_goals simp [push_changes, committedState, hgit, hrepo, hd,
          horigin, hbr, he]
  | false =>
    cases he : env.pushError with
    | none =>
      refine ⟨?_, ?_, fun _ => ?_⟩ <;>
        simp [push_changes, hgit, hrepo, hd, horigin, hbr, he]
    | some msg =>
      refine ⟨?_, ?_, fun hcontr => by simp [he] at hcontr⟩ <;>
      · simp only [push_changes, hgit, hrepo, hd, horigin, hbr, he,
          Bool.not_true, Bool.false_eq_true, if_false, if_true]
        repeat' split
        all_goals simp [push_changes, hgit, hrepo, hd, horigin, hbr, he]

/-- C7: committing in `push_changes` is idempotent: a second call with no
intervening tree changes creates no commit and stages nothing — its trace
is exactly the push attempt — and on a successful push reports
`committed=false`; whenever the tree is dirty the call stages everything
and commits before pushing, and with no message supplied the commit
message is the auto-generated `Vault sync: ` prefix followed by the
timestamp. -/
theorem push_changes_commit_idempotent (env1 env2 : GitEnv) (vp : String)
    (s : RepoState) (m1 m2 : Option String) (now1 now2 ou b : String)
    (h1 : env1.gitInstalled = true) (h2 : env2.gitInstalled = true)
    (hrepo : s.isRepo = true)
    (horigin : lookupRemote s.remotes "origin" = some ou)
    (hbr : s.branch = some b) :
    (push_changes env2 vp (push_changes env1 vp s m1 false now1).2.1
        m2 false now2).2.2 = [Cmd.push]
    ∧ (env2.pushError = none →
        (push_changes env2 vp (push_changes env1 vp s m1 false now1).2.1
            m2 false now2).1 =
          .ok { message := "Changes pushed successfully", path := vp,
                committed := false, pushed := true, commit_message := none })
    ∧ (s.dirtyAll = true →
        (push_changes env1 vp s m1 false now1).2.2 =
          [Cmd.stageAll, Cmd.commit (m1.getD (autoMessage now1)), Cmd.push])
    ∧ autoMessage now1 = "Vault sync: " ++ now1 := by
  obtain ⟨hst1, htr1, -⟩ :=
    push_changes_components env1 vp s m1 now1 ou b h1 hrepo horigin hbr
  have hrepo1 : (push_changes env1 vp s m1 false now1).2.1.isRepo = true := by
    rw [hst1]; cases hd : s.dirtyAll <;> simp [committedState, hrepo]
  have horigin1 : lookupRemote
      (push_changes env1 vp s m1 false now1).2.1.remotes "origin" = some ou := by
    rw [hst1]; cases hd : s.dirtyAll <;> simp [committedState, horigin]
  have hbr1 : (push_changes env1 vp s m1 false now1).2.1.branch = some b := by
    rw [hst1]; cases hd : s.dirtyAll <;> simp [committedState, hbr]
  have hd1 : (push_changes env1 vp s m1 false now1).2.1.dirtyAll = false := by
    rw [hst1]
    cases hd : s.dirtyAll with
    | true =>
      simp [hd, committedState, RepoState.dirtyAll, RepoState.dirtyTracked]
    | false => simp [hd]
  obtain ⟨-, htr2, hok2⟩ :=
    push_changes_components env2 vp (push_changes env1 vp s m1 false now1).2.1
      m2 now2 ou b h2 hrepo1 horigin1 hbr1
  refine ⟨?_, ?_, ?_, rfl⟩
  · rw [htr2, hd1]; rfl
  · intro he2
    rw [hok2 he2, hd1]
    rfl
  · intro hd
    rw [htr1, hd]
    rfl

/-- C7 witness: concrete dirty repository pushed twice. -/
theorem push_changes_commit_idempotent_witness :
    (push_changes envOk "vault"
        (push_changes envOk "vault" dirtyRepo none false "T1").2.1
        none false "T2").2.2 = [Cmd.push]
    ∧ (envOk.pushError = none →
        (push_changes envOk "vault"
            (push_changes envOk "vault" dirtyRepo none false "T1").2.1
            none false "T2").1 =
          .ok { message := "Changes pushed successfully", path := "vault",
                committed := false, pushed := true, commit_message := none })
    ∧ (dirtyRepo.dirtyAll = true →
        (push_changes envOk "vault" dirtyRepo none false "T1").2.2 =
          [Cmd.stageAll, Cmd.commit ((none : Option String).getD (autoMessage "T1")),
           Cmd.push])
    ∧ autoMessage "T1" = "Vault sync: " ++ "T1" :=
  push_changes_commit_idempotent envOk envOk "vault" dirtyRepo none none
    "T1" "T2" "git@github.com:acme/notes.git" "main"
    (by decide) (by decide) (by decide) (by decide) (by decide)

end ObsidianGitBridge
